import Mathlib

/-!
Verification development for the CatPaymentBot payment-session and
subscription lifecycle engine.

The definitions below are a shallow embedding of the Python source:

* `cat_payment_bot/services.py` — `PaymentManager` (session creation,
  status refresh, subscription upsert),
* `cat_payment_bot/database.py` — the SQLite store, modelled as lists of
  rows with explicit row types,
* `cat_payment_bot/bot.py` — the reconciliation pass
  (`_process_payment_updates`, `_handle_status_change`,
  `_handle_successful_payment`) and the subscription watchdog
  (`_process_subscriptions`, `_notify_subscription_expiring`,
  `_expire_subscription`).

Timestamps are modelled as integers (seconds); the code compares ISO-8601
UTC timestamps, whose lexicographic order agrees with chronological order.
Outbound HTTP calls (the AnonPay gateway, Discord DMs, webhooks, role
changes) are modelled as an oracle parameter for fetch results plus an
explicit list of emitted side effects.
-/

namespace CatPaymentBot

/-- Python values that can appear in a profile's free-form parameter map. -/
inductive PyVal where
  | vNone
  | vBool (b : Bool)
  | vStr (s : String)
  | vNum (n : Int)
deriving DecidableEq

/-- `str.lower()` on the (ASCII) status vocabulary used by the gateway. -/
def pyLower (s : String) : String := String.mk (s.data.map Char.toLower)

/-- Truthiness of an optional string, as Python sees it: `None` and `""`
are falsy, everything else truthy. -/
def pyTruthyOpt (o : Option String) : Bool :=
  match o with
  | none => false
  | some s => s ≠ ""

/-- `a or b` on optional strings: keep `a` when truthy, else `b`
(mirrors `session.webhook_url or profile["parameters"].get("webhook")`). -/
def pyOrOptStr (a b : Option String) : Option String :=
  match a with
  | some s => if s ≠ "" then some s else b
  | none => b

/-- `str(response.get("id"))`: a missing key stringifies to `"None"`. -/
def strOfOptId (o : Option String) : String :=
  match o with
  | none => "None"
  | some s => s

/-- services.py: `FINAL_STATUSES`. -/
def FINAL_STATUSES : List String :=
  ["finished", "paid partially", "failed", "expired", "halted", "refunded"]

/-- database.py: one row of `guild_settings`. -/
structure GuildSettings where
  guild_id : Nat
  payout_address : String
  ticker_to : String
  network_to : String
deriving DecidableEq

/-- database.py: one row of `payment_profiles` (parameters as the decoded
JSON key/value map, in insertion order). -/
structure ProfileRow where
  id : Nat
  guild_id : Nat
  name : String
  role_id : Option Nat
  duration_days : Option Int
  parameters : List (String × PyVal)
  donation_mode : Bool
deriving DecidableEq

/-- A decoded gateway status payload: the `status` field (absent when the
JSON has none) plus a tag distinguishing the rest of the raw JSON body. -/
structure Payload where
  status : Option String
  tag : Nat
deriving DecidableEq

/-- database.py: one row of `payment_sessions`. -/
structure SessionRow where
  id : Nat
  guild_id : Nat
  user_id : Nat
  profile_id : Nat
  anonpay_id : String
  status : String
  status_url : String
  checkout_url : String
  webhook_url : Option String
  expires_at : Int
  created_at : Int
  last_status_check : Option Int
  last_status : Option String
  last_payload : Option Payload
deriving DecidableEq

/-- database.py: one row of `subscriptions`. -/
structure SubRow where
  id : Nat
  guild_id : Nat
  user_id : Nat
  profile_id : Nat
  role_id : Option Nat
  expires_at : Int
  created_at : Int
  last_notified_at : Option Int
  webhook_url : Option String
deriving DecidableEq

/-- The durable store (the SQLite database), with the autoincrement
counters made explicit. -/
structure Store where
  profiles : List ProfileRow
  sessions : List SessionRow
  subscriptions : List SubRow
  nextSessionId : Nat
  nextSubId : Nat
deriving DecidableEq

/-- The Discord capability contract: which guilds resolve, which roles and
members exist.  Pure lookups; grant/revoke attempts are emitted as effects. -/
structure Env where
  hasGuild : Nat → Bool
  hasRole : Nat → Nat → Bool
  hasMember : Nat → Nat → Bool

/-- Outbound side effects attempted by the engine and watchdog.  Webhook
effects carry the target URL, a tag for the posted body, and the ids the
body mentions; watchdog effects additionally carry the subscription row id
they were computed from. -/
inductive Effect where
  | notifyExpired (userId : Nat)
  | dmPartialNote (userId : Nat)
  | dmStatusNote (userId : Nat) (status : String)
  | sessionWebhook (url : String) (tag : Nat) (userId : Nat)
  | activationWebhook (url : String) (tag : Nat) (userId : Nat)
  | grantRole (guildId userId roleId : Nat)
  | revokeRole (subId guildId userId roleId : Nat)
  | expiringWebhook (url : String) (subId : Nat)
  | expiredWebhook (url : String) (subId : Nat)
deriving DecidableEq

/-! ### Gateway request construction (services.py lines 88-99) -/

/-- Association-list lookup with Python-dict semantics (unique keys). -/
def dictGet : List (String × String) → String → Option String
  | [], _ => none
  | kv :: rest, k => if kv.1 = k then some kv.2 else dictGet rest k

/-- `params[key] = value` on an association list with unique keys:
replace in place when the key exists, append otherwise. -/
def dictSet : List (String × String) → String → String → List (String × String)
  | [], k, v => [(k, v)]
  | kv :: rest, k, v => if kv.1 = k then (k, v) :: rest else kv :: dictSet rest k v

/-- The value written for one profile parameter:
`str(value).lower() if isinstance(value, bool) else value`
(`None` values are skipped by the caller). -/
def pyValToParam : PyVal → Option String
  | PyVal.vNone => none
  | PyVal.vBool b => some (if b then "true" else "false")
  | PyVal.vStr s => some s
  | PyVal.vNum n => some (toString n)

/-- The loop over `profile["parameters"].items()` in
`start_payment_session`: skip the two bookkeeping keys and `None` values,
write every other entry over the base dict. -/
def buildLoop : List (String × PyVal) → List (String × String) → List (String × String)
  | [], d => d
  | kv :: rest, d =>
    if kv.1 = "discord_role_id" ∨ kv.1 = "duration_days" then buildLoop rest d
    else
      match pyValToParam kv.2 with
      | none => buildLoop rest d
      | some v => buildLoop rest (dictSet d kv.1 v)

/-- The gateway request built by `start_payment_session`: the literal base
dict (direct flag plus the tenant payout settings), then the profile
parameters written over it. -/
def buildParams (gs : GuildSettings) (pp : List (String × PyVal)) : List (String × String) :=
  buildLoop pp
    [("direct", "false"),
     ("address", gs.payout_address),
     ("ticker_to", gs.ticker_to),
     ("network_to", gs.network_to)]

/-! ### Session creation (services.py `start_payment_session`) -/

/-- The decoded JSON body returned by the AnonPay create-checkout call:
the four fields the code reads, plus a tag for the rest of the body. -/
structure AnonpayResponse where
  id : Option String
  status : Option String
  status_url : Option String
  url : Option String
  tag : Nat
deriving DecidableEq

/-- Error kinds raised out of session creation (all are `AnonpayError`
in the source; the constructor records which raise fired). -/
inductive GwErr where
  | adapterFailure
  | missingIdentifier
  | missingUrls
deriving DecidableEq

/-- `profile["parameters"].get("webhook")` (the command surface only ever
stores a string under this key). -/
def profileWebhook (pp : List (String × PyVal)) : Option String :=
  match pp.find? (fun kv => kv.1 == "webhook") with
  | some (_, PyVal.vStr s) => some s
  | _ => none

/-- The session row persisted by `create_payment_session` on success. -/
def newSessionRow (ttlMinutes now : Int) (guild_id user_id : Nat) (st : Store)
    (prof : ProfileRow) (r : AnonpayResponse) : SessionRow :=
  { id := st.nextSessionId
    guild_id := guild_id
    user_id := user_id
    profile_id := prof.id
    anonpay_id := strOfOptId r.id
    status := r.status.getD "waiting"
    status_url := r.status_url.getD ""
    checkout_url := r.url.getD ""
    webhook_url := profileWebhook prof.parameters
    expires_at := now + ttlMinutes * 60
    created_at := now
    last_status_check := some now
    last_status := some (r.status.getD "waiting")
    last_payload := some ⟨r.status, r.tag⟩ }

/-- services.py `PaymentManager.start_payment_session`.  The gateway is an
oracle from the built request to either a failure or a decoded response;
the store threads through so that the write ordering is explicit. -/
def start_payment_session (ttlMinutes now : Int) (guild_id user_id : Nat)
    (gs : GuildSettings) (prof : ProfileRow)
    (gw : List (String × String) → Except Unit AnonpayResponse)
    (st : Store) : Store × Except GwErr SessionRow :=
  match gw (buildParams gs prof.parameters) with
  | Except.error _ => (st, Except.error GwErr.adapterFailure)
  | Except.ok r =>
    if strOfOptId r.id = "" then (st, Except.error GwErr.missingIdentifier)
    else if pyTruthyOpt r.status_url && pyTruthyOpt r.url then
      let row := newSessionRow ttlMinutes now guild_id user_id st prof r
      ({ st with sessions := st.sessions ++ [row], nextSessionId := st.nextSessionId + 1 },
       Except.ok row)
    else (st, Except.error GwErr.missingUrls)

/-! ### Store mutations used by the reconciliation pass (database.py) -/

/-- database.py `update_payment_session_status`: writes status,
last_status, last_status_check and last_payload for the matching row. -/
def update_payment_session_status (st : Store) (sid : Nat) (status : String)
    (p : Payload) (now : Int) : Store :=
  { st with sessions := st.sessions.map (fun r =>
      if r.id = sid then
        { r with status := status, last_status := some status,
                 last_status_check := some now, last_payload := some p }
      else r) }

/-- database.py `delete_payment_session`. -/
def delete_payment_session (st : Store) (sid : Nat) : Store :=
  { st with sessions := st.sessions.filter (fun r => r.id != sid) }

/-- database.py `get_payment_profile_by_id`. -/
def getProfileById (st : Store) (pid : Nat) : Option ProfileRow :=
  st.profiles.find? (fun pr => pr.id == pid)

/-- database.py `upsert_subscription`: insert, or on conflict of the
(guild, user, profile) triple overwrite role/expiry/webhook and clear the
notification marker. -/
def subTripleMatches (g u pid : Nat) (r : SubRow) : Bool :=
  r.guild_id == g && r.user_id == u && r.profile_id == pid

def upsert_subscription (st : Store) (now : Int) (g u pid : Nat)
    (role_id : Option Nat) (expires : Int) (webhook : Option String) : Store :=
  if st.subscriptions.any (subTripleMatches g u pid) then
    { st with subscriptions := st.subscriptions.map (fun r =>
        if subTripleMatches g u pid r then
          { r with role_id := role_id, expires_at := expires,
                   webhook_url := webhook, last_notified_at := none }
        else r) }
  else
    { st with
      subscriptions := st.subscriptions ++
        [{ id := st.nextSubId, guild_id := g, user_id := u, profile_id := pid,
           role_id := role_id, expires_at := expires, created_at := now,
           last_notified_at := none, webhook_url := webhook }]
      nextSubId := st.nextSubId + 1 }

/-! ### Transition handler (bot.py `_handle_status_change`) -/

/-- The webhook post fired first by the transition handler when the
session carries a truthy webhook target. -/
def sessionWebhookEffects (s : SessionRow) (p : Payload) : List Effect :=
  match s.webhook_url with
  | some u => if u ≠ "" then [Effect.sessionWebhook u p.tag s.user_id] else []
  | none => []

/-- bot.py `_handle_successful_payment`: silently returns when the guild
or the profile is missing; otherwise attempts the role grant, upserts the
subscription when a duration is configured, and posts the activation
webhook when a webhook target exists. -/
def handle_successful_payment (env : Env) (now : Int) (st : Store) (s : SessionRow)
    (guildOk : Bool) (profile : Option ProfileRow) (p : Payload) : Store × List Effect :=
  match guildOk, profile with
  | true, some prof =>
    let grantEffs :=
      match prof.role_id with
      | some rid =>
        if rid ≠ 0 ∧ env.hasRole s.guild_id rid = true ∧ env.hasMember s.guild_id s.user_id = true then
          [Effect.grantRole s.guild_id s.user_id rid]
        else []
      | none => []
    let webhook_url := pyOrOptStr s.webhook_url (profileWebhook prof.parameters)
    let st' :=
      match prof.duration_days with
      | some d =>
        if d ≠ 0 then
          upsert_subscription st now s.guild_id s.user_id s.profile_id prof.role_id
            (now + d * 86400) webhook_url
        else st
      | none => st
    let actEffs :=
      match webhook_url with
      | some u => if u ≠ "" then [Effect.activationWebhook u p.tag s.user_id] else []
      | none => []
    (st', grantEffs ++ actEffs)
  | _, _ => (st, [])

/-- bot.py `_handle_status_change`, dispatching on the normalized status. -/
def handle_status_change (env : Env) (now : Int) (st : Store) (s : SessionRow)
    (status : String) (p : Payload) : Store × List Effect :=
  let wEffs := sessionWebhookEffects s p
  let guildOk := env.hasGuild s.guild_id
  let profile := if guildOk then getProfileById st s.profile_id else none
  if status = "finished" then
    let r := handle_successful_payment env now st s guildOk profile p
    (r.1, wEffs ++ r.2)
  else if status = "paid partially" then
    (st, wEffs ++ [Effect.dmPartialNote s.user_id])
  else if status = "failed" ∨ status = "expired" ∨ status = "halted" ∨ status = "refunded" then
    (st, wEffs ++ [Effect.dmStatusNote s.user_id status])
  else
    (st, wEffs)

/-! ### One reconciliation work item (bot.py `_process_payment_updates` body) -/

/-- `str(payload.get("status", session.status)).lower()` as computed by
`refresh_session_status`. -/
def newStatus (s : SessionRow) (p : Payload) : String :=
  pyLower (p.status.getD s.status)

/-- The observable outcome of processing one loaded session:
the resulting store, the emitted effects, whether a remote status call was
issued, and whether the transition handler was triggered. -/
structure StepResult where
  store : Store
  effects : List Effect
  polled : Bool
  triggered : Bool
deriving DecidableEq

/-- The loop body of bot.py `_process_payment_updates` for one loaded
session, with the gateway fetch result supplied as an oracle. -/
def processSession (env : Env) (now : Int) (f : Except Unit Payload)
    (st : Store) (s : SessionRow) : StepResult :=
  if s.expires_at < now ∧ s.status ∉ FINAL_STATUSES then
    { store := delete_payment_session st s.id
      effects := [Effect.notifyExpired s.user_id]
      polled := false
      triggered := false }
  else
    match f with
    | Except.error _ => { store := st, effects := [], polled := true, triggered := false }
    | Except.ok p =>
      let status := newStatus s p
      let st1 := update_payment_session_status st s.id status p now
      if status ≠ s.status then
        let hr := handle_status_change env now st1 s status p
        { store := if status ∈ FINAL_STATUSES then delete_payment_session hr.1 s.id else hr.1
          effects := hr.2
          polled := true
          triggered := true }
      else
        { store := if status ∈ FINAL_STATUSES then delete_payment_session st1 s.id else st1
          effects := []
          polled := true
          triggered := false }

/-- services.py `load_active_sessions`: every session whose expiry is not
older than twice the session TTL. -/
def loadActiveSessions (st : Store) (now ttlMinutes : Int) : List SessionRow :=
  st.sessions.filter (fun r => decide (now - ttlMinutes * 2 * 60 ≤ r.expires_at))

/-- The per-session loop of one reconciliation pass over a loaded snapshot. -/
def runSessions (env : Env) (now : Int) (fetch : String → Except Unit Payload) :
    List SessionRow → Store → Store × List Effect
  | [], st => (st, [])
  | s :: rest, st =>
    let r := processSession env now (fetch s.status_url) st s
    let rr := runSessions env now fetch rest r.store
    (rr.1, r.effects ++ rr.2)

/-- bot.py `_process_payment_updates`: one full reconciliation pass. -/
def process_payment_updates (env : Env) (now ttlMinutes : Int)
    (fetch : String → Except Unit Payload) (st : Store) : Store × List Effect :=
  runSessions env now fetch (loadActiveSessions st now ttlMinutes) st

/-! ### Subscription watchdog (bot.py `_process_subscriptions`) -/

/-- database.py `list_expiring_subscriptions` with a one-day advance
notice window: expiry between `now` and `now + 1 day` (inclusive), and the
notification marker unset or more than one minute old. -/
def expiringPred (now : Int) (r : SubRow) : Bool :=
  decide (now ≤ r.expires_at) && decide (r.expires_at ≤ now + 86400) &&
    (match r.last_notified_at with
     | none => true
     | some t => decide (t < now - 60))

/-- database.py `mark_subscription_notified`. -/
def markRow (now : Int) (r : SubRow) : SubRow :=
  { r with last_notified_at := some now }

def mark_subscription_notified (st : Store) (sid : Nat) (now : Int) : Store :=
  { st with subscriptions := st.subscriptions.map (fun r =>
      if r.id = sid then markRow now r else r) }

/-- database.py `delete_subscription`. -/
def delete_subscription (st : Store) (sid : Nat) : Store :=
  { st with subscriptions := st.subscriptions.filter (fun r => r.id != sid) }

/-- bot.py `_notify_subscription_expiring`: nothing when the guild does
not resolve; otherwise a webhook post when the row has a truthy target. -/
def notify_subscription_expiring (env : Env) (sub : SubRow) : List Effect :=
  if env.hasGuild sub.guild_id then
    match sub.webhook_url with
    | some u => if u ≠ "" then [Effect.expiringWebhook u sub.id] else []
    | none => []
  else []

/-- bot.py `_expire_subscription`: nothing when the guild does not
resolve; otherwise the role revocation attempt (when role and member both
resolve) followed by the expiry webhook (when a truthy target exists). -/
def expire_subscription (env : Env) (sub : SubRow) : List Effect :=
  if env.hasGuild sub.guild_id then
    let revokeEffs :=
      match sub.role_id with
      | some rid =>
        if rid ≠ 0 ∧ env.hasMember sub.guild_id sub.user_id = true ∧ env.hasRole sub.guild_id rid = true then
          [Effect.revokeRole sub.id sub.guild_id sub.user_id rid]
        else []
      | none => []
    let whEffs :=
      match sub.webhook_url with
      | some u => if u ≠ "" then [Effect.expiredWebhook u sub.id] else []
      | none => []
    revokeEffs ++ whEffs
  else []

/-- The expiring-soon loop of `_process_subscriptions`: skip every row
whose notification marker is set, notify and mark the rest. -/
def sweepExpiringLoop (env : Env) (now : Int) :
    List SubRow → Store → Store × List Effect
  | [], st => (st, [])
  | sub :: rest, st =>
    if sub.last_notified_at.isSome then sweepExpiringLoop env now rest st
    else
      let st' := mark_subscription_notified st sub.id now
      let r := sweepExpiringLoop env now rest st'
      (r.1, notify_subscription_expiring env sub ++ r.2)

/-- The expired loop of `_process_subscriptions`: run the expiry effects,
then delete the row, unconditionally. -/
def sweepExpiredLoop (env : Env) : List SubRow → Store → Store × List Effect
  | [], st => (st, [])
  | sub :: rest, st =>
    let effs := expire_subscription env sub
    let st' := delete_subscription st sub.id
    let r := sweepExpiredLoop env rest st'
    (r.1, effs ++ r.2)

/-- bot.py `_process_subscriptions`: one watchdog sweep.  The expired set
is queried after the expiring-soon loop has run, as in the source. -/
def process_subscriptions (env : Env) (now : Int) (st : Store) : Store × List Effect :=
  let expiring := st.subscriptions.filter (expiringPred now)
  let r1 := sweepExpiringLoop env now expiring st
  let expired := r1.1.subscriptions.filter (fun r => decide (r.expires_at ≤ now))
  let r2 := sweepExpiredLoop env expired r1.1
  (r2.1, r1.2 ++ r2.2)

/-! ### Concrete sample data used by witnesses and counterexamples -/

/-- A Discord environment in which every guild, role and member resolves. -/
def envAll : Env := ⟨fun _ => true, fun _ _ => true, fun _ _ => true⟩

/-- A Discord environment in which no guild resolves. -/
def envNoGuild : Env := ⟨fun _ => false, fun _ _ => true, fun _ _ => true⟩

/-- An empty store. -/
def stEmpty : Store := ⟨[], [], [], 1, 1⟩

/-- Sample tenant settings. -/
def gsT : GuildSettings := ⟨10, "tenantaddr", "XMR", "Mainnet"⟩

/-- Sample payment profile with a role and a 30-day duration. -/
def profT : ProfileRow := ⟨3, 10, "vip", some 4, some 30, [("amount", PyVal.vStr "5")], false⟩

/-- A gateway response with a missing `id` but both URLs present. -/
def respNoId : AnonpayResponse := ⟨none, some "waiting", some "https://s", some "https://u", 0⟩

/-- A fully well-formed gateway response. -/
def respGood : AnonpayResponse := ⟨some "abc", some "waiting", some "https://s", some "https://u", 1⟩

/-- Two status payloads that agree on the status but differ in the raw body. -/
def pay5 : Payload := ⟨some "waiting", 5⟩

def pay7 : Payload := ⟨some "waiting", 7⟩

/-- A live session whose stored status is already lowercase. -/
def rowC2 : SessionRow :=
  ⟨1, 10, 2, 3, "ap", "waiting", "su", "cu", none, 100, 0, some 0, some "waiting", some pay5⟩

def stC2 : Store := ⟨[], [rowC2], [], 2, 1⟩

/-- A live session whose stored status carries an uppercase letter. -/
def rowC5 : SessionRow :=
  ⟨1, 10, 2, 3, "ap", "Waiting", "su", "cu", none, 100, 0, some 0, some "Waiting", some pay5⟩

def stC5 : Store := ⟨[], [rowC5], [], 2, 1⟩

/-- A locally expired session with a non-terminal status. -/
def rowC8 : SessionRow :=
  ⟨1, 10, 2, 3, "ap", "waiting", "su", "cu", none, 40, 0, some 0, some "waiting", some pay5⟩

def stC8 : Store := ⟨[], [rowC8], [], 2, 1⟩

/-- A subscription inside the expiry-warning window whose notification
marker is set and more than one minute old. -/
def subC3 : SubRow := ⟨1, 10, 2, 3, some 4, 1000, 0, some 100, some "http://w"⟩

def stC3 : Store := ⟨[], [], [subC3], 1, 2⟩

/-- An expired subscription with a webhook target and a role. -/
def subC10 : SubRow := ⟨1, 10, 2, 3, some 4, 400, 0, none, some "http://w"⟩

def stC10 : Store := ⟨[], [], [subC10], 1, 2⟩

/-- A never-notified subscription inside the expiry-warning window. -/
def subW3 : SubRow := ⟨1, 10, 2, 3, some 4, 1000, 0, none, some "http://w"⟩

def stW3 : Store := ⟨[], [], [subW3], 1, 2⟩

/-- A store holding the sample profile and a live waiting session for it. -/
def rowC9 : SessionRow :=
  ⟨1, 10, 2, 3, "ap", "waiting", "su", "cu", none, 200, 0, some 0, some "waiting", some pay5⟩

def stC9 : Store := ⟨[profT], [rowC9], [], 2, 1⟩

def payFinished : Payload := ⟨some "finished", 9⟩

/-! ## C1 — error conditions of session creation -/

/-- Claim C1 as stated is false: a gateway response that lacks the
reference id entirely does not raise, because `str(response.get("id"))`
stringifies the missing value to the truthy `"None"`; the session is
persisted and returned. -/
theorem claim1_counterexample :
    respNoId.id = none ∧
    (start_payment_session 20 0 10 2 gsT profT (fun _ => Except.ok respNoId) stEmpty).2.isOk
      = true := by
  decide

/-- Claim C1, amended: `start_payment_session` succeeds exactly when the
gateway call succeeds, the stringified reference id is non-empty (a
missing id stringifies to `"None"` and passes the check), and the
status-check URL and the checkout URL are each present and non-empty
(either one missing raises); on success the new session row is appended
to the store and returned. -/
theorem claim1_amended (ttl now : Int) (g u : Nat) (gs : GuildSettings)
    (prof : ProfileRow) (gw : List (String × String) → Except Unit AnonpayResponse)
    (st : Store) :
    ((start_payment_session ttl now g u gs prof gw st).2.isOk = true ↔
      ∃ r, gw (buildParams gs prof.parameters) = Except.ok r ∧
        strOfOptId r.id ≠ "" ∧ pyTruthyOpt r.status_url = true ∧ pyTruthyOpt r.url = true) ∧
    (∀ r, gw (buildParams gs prof.parameters) = Except.ok r →
      strOfOptId r.id ≠ "" → pyTruthyOpt r.status_url = true → pyTruthyOpt r.url = true →
      (start_payment_session ttl now g u gs prof gw st).1.sessions
          = st.sessions ++ [newSessionRow ttl now g u st prof r] ∧
      (start_payment_session ttl now g u gs prof gw st).2
          = Except.ok (newSessionRow ttl now g u st prof r)) := by
  unfold start_payment_session
  cases hgw : gw (buildParams gs prof.parameters) with
  | error e =>
    dsimp only
    refine ⟨⟨fun h => Bool.noConfusion h, ?_⟩, ?_⟩
    · rintro ⟨r, hr, -, -, -⟩; exact Except.noConfusion hr
    · intro r hr; exact Except.noConfusion hr
  | ok r =>
    dsimp only
    by_cases hid : strOfOptId r.id = ""
    · rw [if_pos hid]
      refine ⟨⟨fun h => Bool.noConfusion h, ?_⟩, ?_⟩
      · rintro ⟨r', hr', hid', -, -⟩
        injection hr' with hh
        subst hh
        exact absurd hid hid'
      · intro r' hr' hid' _ _
        injection hr' with hh
        subst hh
        exact absurd hid hid'
    · by_cases hurl : (pyTruthyOpt r.status_url && pyTruthyOpt r.url) = true
      · have hand := Bool.and_eq_true _ _ ▸ hurl
        rw [if_neg hid, if_pos hurl]
        refine ⟨⟨fun _ => ⟨r, rfl, hid, hand.1, hand.2⟩, fun _ => rfl⟩, ?_⟩
        intro r' hr' _ _ _
        injection hr' with hh
        subst hh
        exact ⟨rfl, rfl⟩
      · rw [if_neg hid, if_neg hurl]
        refine ⟨⟨fun h => Bool.noConfusion h, ?_⟩, ?_⟩
        · rintro ⟨r', hr', -, hsu, hu⟩
          injection hr' with hh
          subst hh
          exact absurd (by rw [hsu, hu]; rfl) hurl
        · intro r' hr' _ hsu hu
          injection hr' with hh
          subst hh
          exact absurd (by rw [hsu, hu]; rfl) hurl

/-- Witness for the amended C1 at a well-formed response. -/
theorem claim1_witness :
    (start_payment_session 20 0 10 2 gsT profT (fun _ => Except.ok respGood) stEmpty).1.sessions
        = stEmpty.sessions ++ [newSessionRow 20 0 10 2 stEmpty profT respGood] ∧
    (start_payment_session 20 0 10 2 gsT profT (fun _ => Except.ok respGood) stEmpty).2
        = Except.ok (newSessionRow 20 0 10 2 stEmpty profT respGood) :=
  (claim1_amended 20 0 10 2 gsT profT (fun _ => Except.ok respGood) stEmpty).2
    respGood rfl (by decide) (by decide) (by decide)

/-! ## C7 — no partial state on failed creation -/

/-- Claim C7: when session creation fails (adapter failure or a malformed
gateway response), the store is unchanged: the session write happens only
after the gateway call succeeded and the response passed validation. -/
theorem claim7_no_partial_state (ttl now : Int) (g u : Nat) (gs : GuildSettings)
    (prof : ProfileRow) (gw : List (String × String) → Except Unit AnonpayResponse)
    (st : Store) :
    (start_payment_session ttl now g u gs prof gw st).2.isOk = false →
    (start_payment_session ttl now g u gs prof gw st).1 = st := by
  unfold start_payment_session
  cases hgw : gw (buildParams gs prof.parameters) with
  | error e => intro _; rfl
  | ok r =>
    by_cases hid : strOfOptId r.id = ""
    · simp only [if_pos hid]; intro _; trivial
    · by_cases hurl : pyTruthyOpt r.status_url && pyTruthyOpt r.url
      · simp only [if_neg hid, if_pos hurl, Except.isOk]
        intro h; cases h
      · simp only [if_neg hid, if_neg hurl]; intro _; trivial

/-- Witness for C7 at a failing gateway call. -/
theorem claim7_witness :
    (start_payment_session 20 0 10 2 gsT profT (fun _ => Except.error ()) stEmpty).1
      = stEmpty :=
  claim7_no_partial_state 20 0 10 2 gsT profT (fun _ => Except.error ()) stEmpty (by decide)

/-! ## C4 — precedence of tenant settings in the gateway request -/

/-- Claim C4 as stated is false: the profile's parameters are written over
the base dict after the tenant settings, so a profile parameter named
`address` overrides the tenant's payout address in the built request. -/
theorem claim4_counterexample :
    gsT.payout_address = "tenantaddr" ∧
    dictGet (buildParams gsT [("address", PyVal.vStr "attacker")]) "address"
      = some "attacker" := by
  decide

/-- Lookup of a key that a single write did not touch is unchanged. -/
theorem dictGet_dictSet_ne (d : List (String × String)) (k k' v : String)
    (h : k ≠ k') : dictGet (dictSet d k' v) k = dictGet d k := by
  induction d with
  | nil => simp [dictSet, dictGet, Ne.symm h]
  | cons kv rest ih =>
    by_cases hk : kv.1 = k'
    · simp [dictSet, dictGet, hk, Ne.symm h]
    · simp only [dictSet, if_neg hk, dictGet]
      by_cases hk2 : kv.1 = k
      · simp [hk2]
      · simp [hk2, ih]

/-- Lookup of a key never written by the profile-parameter loop is
unchanged from the base dict. -/
theorem buildLoop_lookup_ne (pp : List (String × PyVal)) (d : List (String × String))
    (k : String) (h : ∀ kv ∈ pp, kv.1 ≠ k) :
    dictGet (buildLoop pp d) k = dictGet d k := by
  induction pp generalizing d with
  | nil => rfl
  | cons kv rest ih =>
    have hk : kv.1 ≠ k := h kv (by simp)
    have hrest : ∀ x ∈ rest, x.1 ≠ k := fun x hx => h x (by simp [hx])
    unfold buildLoop
    by_cases hbk : kv.1 = "discord_role_id" ∨ kv.1 = "duration_days"
    · simp only [if_pos hbk]; exact ih _ hrest
    · simp only [if_neg hbk]
      cases hpv : pyValToParam kv.2 with
      | none => exact ih _ hrest
      | some v => rw [ih _ hrest, dictGet_dictSet_ne _ _ _ _ (Ne.symm hk)]

/-- Claim C4, amended: the tenant's payout address, coin and network carry
into the built request for every profile parameter map that does not
itself bind the keys `address`, `ticker_to` or `network_to` (the actual
precedence is profile parameters over tenant settings over defaults,
because the profile loop writes last).  Profiles created through the
bot's own command surface never contain these keys. -/
theorem claim4_amended (gs : GuildSettings) (pp : List (String × PyVal))
    (h : ∀ kv ∈ pp, kv.1 ≠ "address" ∧ kv.1 ≠ "ticker_to" ∧ kv.1 ≠ "network_to") :
    dictGet (buildParams gs pp) "address" = some gs.payout_address ∧
    dictGet (buildParams gs pp) "ticker_to" = some gs.ticker_to ∧
    dictGet (buildParams gs pp) "network_to" = some gs.network_to := by
  unfold buildParams
  refine ⟨?_, ?_, ?_⟩
  · rw [buildLoop_lookup_ne _ _ _ (fun kv hkv => (h kv hkv).1)]
    simp [dictGet]
  · rw [buildLoop_lookup_ne _ _ _ (fun kv hkv => (h kv hkv).2.1)]
    simp [dictGet]
  · rw [buildLoop_lookup_ne _ _ _ (fun kv hkv => (h kv hkv).2.2)]
    simp [dictGet]

/-- Witness for the amended C4 at the sample profile parameters. -/
theorem claim4_witness :
    dictGet (buildParams gsT [("amount", PyVal.vStr "5")]) "address" = some gsT.payout_address ∧
    dictGet (buildParams gsT [("amount", PyVal.vStr "5")]) "ticker_to" = some gsT.ticker_to ∧
    dictGet (buildParams gsT [("amount", PyVal.vStr "5")]) "network_to" = some gsT.network_to :=
  claim4_amended gsT [("amount", PyVal.vStr "5")] (by decide)

/-! ## C8 — local expiry precedes remote polling -/

/-- Claim C8: a loaded session whose local expiry has passed and whose
status is non-terminal is deleted, the "expired" notification is emitted,
and no remote status call is issued for it (the result does not consult
the fetch oracle and `polled` is false): the local-expiry check precedes
remote polling. -/
theorem claim8_local_expiry_precedence (env : Env) (now : Int)
    (f : Except Unit Payload) (st : Store) (s : SessionRow)
    (h1 : s.expires_at < now) (h2 : s.status ∉ FINAL_STATUSES) :
    processSession env now f st s =
      { store := delete_payment_session st s.id
        effects := [Effect.notifyExpired s.user_id]
        polled := false
        triggered := false } := by
  unfold processSession
  rw [if_pos ⟨h1, h2⟩]

/-- Witness for C8 at an expired waiting session. -/
theorem claim8_witness :
    rowC8.expires_at < 100 ∧
    processSession envAll 100 (Except.error ()) stC8 rowC8 =
      { store := delete_payment_session stC8 rowC8.id
        effects := [Effect.notifyExpired rowC8.user_id]
        polled := false
        triggered := false } :=
  ⟨by decide,
   claim8_local_expiry_precedence envAll 100 (Except.error ()) stC8 rowC8
     (by decide) (by decide)⟩

/-! ## C6 — failed poll performs no local mutation -/

/-- Claim C6: when the session reaches the polling step (it is not in the
local-expiry branch) and the gateway fetch fails, the store is unchanged
and no effects are emitted, so the session's persisted status and last
payload are identical before and after the pass. -/
theorem claim6_failed_poll_no_mutation (env : Env) (now : Int) (st : Store)
    (s : SessionRow) (e : Unit)
    (h : ¬ (s.expires_at < now ∧ s.status ∉ FINAL_STATUSES)) :
    processSession env now (Except.error e) st s =
      { store := st, effects := [], polled := true, triggered := false } := by
  unfold processSession
  rw [if_neg h]

/-- Witness for C6 at a live waiting session with a failing fetch. -/
theorem claim6_witness :
    processSession envAll 50 (Except.error ()) stC2 rowC2 =
      { store := stC2, effects := [], polled := true, triggered := false } :=
  claim6_failed_poll_no_mutation envAll 50 stC2 rowC2 () (by decide)

/-! ## C2 — what is persisted when the status is unchanged -/

/-- Claim C2 as stated is false: on a successful poll whose status equals
the previous durable status, the code still calls
`update_payment_session_status`, which rewrites the status and raw payload
fields; with a fetched payload that differs from the stored one only
outside the status field, the persisted payload changes even though the
status is unchanged. -/
theorem claim2_counterexample :
    newStatus rowC2 pay7 = rowC2.status ∧
    rowC2.last_payload = some pay5 ∧ pay7 ≠ pay5 ∧
    (processSession envAll 50 (Except.ok pay7) stC2 rowC2).triggered = false ∧
    (processSession envAll 50 (Except.ok pay7) stC2 rowC2).store.sessions.map
        SessionRow.last_payload
      ≠ stC2.sessions.map SessionRow.last_payload := by
  decide

/-- Claim C2, amended: every successful poll persists the fetched status,
raw payload and poll timestamp unconditionally
(`update_payment_session_status` writes all of them; the timestamp-only
helper is never called).  When the fetched payload coincides with the
stored one and the status is unchanged and non-terminal, the net effect
is that only the poll timestamp differs: no transition handler runs, no
effects are emitted, and the subscription set is unchanged, so repeated
reconciles with identical gateway answers are value-idempotent. -/
theorem claim2_amended (env : Env) (now : Int) (st : Store) (s : SessionRow) (p : Payload)
    (hsnap : ∀ r ∈ st.sessions, r.id = s.id → r = s)
    (hstat : newStatus s p = s.status)
    (hfin : s.status ∉ FINAL_STATUSES)
    (hexp : ¬ (s.expires_at < now))
    (hls : s.last_status = some s.status)
    (hlp : s.last_payload = some p) :
    (processSession env now (Except.ok p) st s).store
        = { st with sessions := st.sessions.map (fun r =>
              if r.id = s.id then { r with last_status_check := some now } else r) } ∧
    (processSession env now (Except.ok p) st s).effects = [] ∧
    (processSession env now (Except.ok p) st s).triggered = false ∧
    (processSession env now (Except.ok p) st s).store.subscriptions = st.subscriptions := by
  have hbranch : ¬ (s.expires_at < now ∧ s.status ∉ FINAL_STATUSES) := fun hc => hexp hc.1
  have hmap : st.sessions.map (fun r =>
        if r.id = s.id then
          { r with status := s.status, last_status := some s.status,
                   last_status_check := some now, last_payload := some p }
        else r)
      = st.sessions.map (fun r =>
          if r.id = s.id then { r with last_status_check := some now } else r) := by
    apply List.map_congr_left
    intro r hr
    by_cases hid : r.id = s.id
    · have hrs : r = s := hsnap r hr hid
      subst hrs
      rw [if_pos hid, if_pos hid, ← hls, ← hlp]
    · rw [if_neg hid, if_neg hid]
  unfold processSession
  rw [if_neg hbranch]
  dsimp only
  rw [if_neg (not_not_intro hstat), hstat, if_neg hfin]
  refine ⟨?_, rfl, rfl, ?_⟩
  · unfold update_payment_session_status
    rw [hmap]
  · unfold update_payment_session_status
    rfl

/-- Witness for the amended C2: the gateway returns the stored payload
again, and only the poll timestamp moves. -/
theorem claim2_witness :
    (processSession envAll 50 (Except.ok pay5) stC2 rowC2).store
        = { stC2 with sessions := stC2.sessions.map (fun r =>
              if r.id = rowC2.id then { r with last_status_check := some 50 } else r) } ∧
    (processSession envAll 50 (Except.ok pay5) stC2 rowC2).effects = [] ∧
    (processSession envAll 50 (Except.ok pay5) stC2 rowC2).triggered = false ∧
    (processSession envAll 50 (Except.ok pay5) stC2 rowC2).store.subscriptions
        = stC2.subscriptions :=
  claim2_amended envAll 50 stC2 rowC2 pay5 (by decide) (by decide) (by decide)
    (by decide) (by decide) (by decide)

/-! ## C5 — how the status comparison treats case -/

/-- Claim C5 as stated is false: the fetched status is lowercased but is
compared to the stored previous status exactly, so a stored `"Waiting"`
against a fetched `"waiting"` — equal ignoring case — still triggers the
transition handler. -/
theorem claim5_counterexample :
    rowC5.status = "Waiting" ∧
    pyLower "waiting" = pyLower rowC5.status ∧
    (processSession envAll 50 (Except.ok pay7) stC5 rowC5).triggered = true := by
  decide

/-- Claim C5, amended: the transition handler is triggered if and only if
the lowercased fetched status differs as a string from the stored
previous status (which is not lowercased before comparing); whenever the
stored status is already lowercase — as it is after any successful poll —
this coincides with a case-insensitive comparison. -/
theorem claim5_amended (env : Env) (now : Int) (st : Store) (s : SessionRow) (p : Payload)
    (hexp : ¬ (s.expires_at < now ∧ s.status ∉ FINAL_STATUSES)) :
    ((processSession env now (Except.ok p) st s).triggered = true ↔
      newStatus s p ≠ s.status) ∧
    (pyLower s.status = s.status →
      ((processSession env now (Except.ok p) st s).triggered = true ↔
        pyLower (p.status.getD s.status) ≠ pyLower s.status)) := by
  have key : (processSession env now (Except.ok p) st s).triggered = true ↔
      newStatus s p ≠ s.status := by
    unfold processSession
    rw [if_neg hexp]
    dsimp only
    by_cases h : newStatus s p ≠ s.status
    · rw [if_pos h]
      exact ⟨fun _ => h, fun _ => rfl⟩
    · rw [if_neg h]
      exact ⟨fun hh => Bool.noConfusion hh, fun hc => absurd hc h⟩
  refine ⟨key, fun hlow => ?_⟩
  rw [key]
  unfold newStatus
  rw [hlow]

/-- Witness for the amended C5 at a lowercase stored status. -/
theorem claim5_witness :
    (processSession envAll 50 (Except.ok pay7) stC2 rowC2).triggered = true ↔
      newStatus rowC2 pay7 ≠ rowC2.status :=
  (claim5_amended envAll 50 stC2 rowC2 pay7 (by decide)).1

/-! ## C9 — role grants happen only for `finished` -/

/-- Every member of the session-webhook effect list is a session webhook. -/
theorem mem_sessionWebhookEffects {e : Effect} {s : SessionRow} {p : Payload}
    (h : e ∈ sessionWebhookEffects s p) :
    ∃ uu, e = Effect.sessionWebhook uu p.tag s.user_id := by
  unfold sessionWebhookEffects at h
  cases hw : s.webhook_url with
  | none => rw [hw] at h; cases h
  | some uu =>
    rw [hw] at h
    dsimp only at h
    by_cases h2 : uu ≠ ""
    · rw [if_pos h2] at h
      simp at h
      exact ⟨uu, h⟩
    · rw [if_neg h2] at h; cases h

/-- A role-grant effect emitted by `_handle_successful_payment` carries
the session's guild and user. -/
theorem grant_mem_successful (env : Env) (now : Int) (st : Store) (s : SessionRow)
    (guildOk : Bool) (profile : Option ProfileRow) (p : Payload) (g u rid : Nat)
    (h : Effect.grantRole g u rid ∈ (handle_successful_payment env now st s guildOk profile p).2) :
    g = s.guild_id ∧ u = s.user_id := by
  cases guildOk with
  | false => simp [handle_successful_payment] at h
  | true =>
    cases profile with
    | none => simp [handle_successful_payment] at h
    | some prof =>
      simp only [handle_successful_payment] at h
      rw [List.mem_append] at h
      rcases h with h1 | h1
      · split at h1
        · split at h1
          · simp at h1
            exact ⟨h1.1, h1.2.1⟩
          · cases h1
        · cases h1
      · split at h1
        · split at h1
          · simp at h1
          · cases h1
        · cases h1

/-- A role-grant effect emitted by the transition handler implies the
dispatched status was `finished` and carries the session's ids. -/
theorem grant_mem_handler (env : Env) (now : Int) (st : Store) (s : SessionRow)
    (status : String) (p : Payload) (g u rid : Nat)
    (h : Effect.grantRole g u rid ∈ (handle_status_change env now st s status p).2) :
    status = "finished" ∧ g = s.guild_id ∧ u = s.user_id := by
  unfold handle_status_change at h
  by_cases hf : status = "finished"
  · rw [if_pos hf] at h
    dsimp only at h
    rw [List.mem_append] at h
    rcases h with hw | hg
    · obtain ⟨uu, heq⟩ := mem_sessionWebhookEffects hw
      exact Effect.noConfusion heq
    · exact ⟨hf, grant_mem_successful _ _ _ _ _ _ _ _ _ _ hg⟩
  · exfalso
    rw [if_neg hf] at h
    by_cases hp : status = "paid partially"
    · rw [if_pos hp] at h
      dsimp only at h
      rw [List.mem_append] at h
      rcases h with hw | hg
      · obtain ⟨uu, heq⟩ := mem_sessionWebhookEffects hw
        exact Effect.noConfusion heq
      · simp at hg
    · rw [if_neg hp] at h
      by_cases hterm : status = "failed" ∨ status = "expired" ∨ status = "halted" ∨ status = "refunded"
      · rw [if_pos hterm] at h
        dsimp only at h
        rw [List.mem_append] at h
        rcases h with hw | hg
        · obtain ⟨uu, heq⟩ := mem_sessionWebhookEffects hw
          exact Effect.noConfusion heq
        · simp at hg
      · rw [if_neg hterm] at h
        obtain ⟨uu, heq⟩ := mem_sessionWebhookEffects h
        exact Effect.noConfusion heq

/-- The transition handler leaves the store unchanged unless the status
is `finished`. -/
theorem handler_store_eq (env : Env) (now : Int) (st : Store) (s : SessionRow)
    (status : String) (p : Payload) (h : status ≠ "finished") :
    (handle_status_change env now st s status p).1 = st := by
  unfold handle_status_change
  rw [if_neg h]
  by_cases h2 : status = "paid partially"
  · rw [if_pos h2]
  · rw [if_neg h2]
    by_cases h3 : status = "failed" ∨ status = "expired" ∨ status = "halted" ∨ status = "refunded"
    · rw [if_pos h3]
    · rw [if_neg h3]

/-- A role-grant effect emitted while processing one session implies the
fetch succeeded and the lowered fetched status was `finished`. -/
theorem grant_mem_processSession (env : Env) (now : Int) (f : Except Unit Payload)
    (st : Store) (s : SessionRow) (g u rid : Nat)
    (h : Effect.grantRole g u rid ∈ (processSession env now f st s).effects) :
    ∃ p, f = Except.ok p ∧ newStatus s p = "finished" ∧ g = s.guild_id ∧ u = s.user_id := by
  unfold processSession at h
  by_cases hb : s.expires_at < now ∧ s.status ∉ FINAL_STATUSES
  · rw [if_pos hb] at h
    simp at h
  · rw [if_neg hb] at h
    cases f with
    | error e => simp at h
    | ok p =>
      dsimp only at h
      by_cases ht : newStatus s p ≠ s.status
      · rw [if_pos ht] at h
        dsimp only at h
        have hh := grant_mem_handler _ _ _ _ _ _ _ _ _ h
        exact ⟨p, rfl, hh.1, hh.2.1, hh.2.2⟩
      · rw [if_neg ht] at h
        simp at h

/-- Processing one session whose outcome is not `finished` leaves the
subscription table unchanged. -/
theorem processSession_subs_eq (env : Env) (now : Int) (f : Except Unit Payload)
    (st : Store) (s : SessionRow)
    (h : ∀ p, f = Except.ok p → newStatus s p ≠ "finished") :
    (processSession env now f st s).store.subscriptions = st.subscriptions := by
  unfold processSession
  by_cases hb : s.expires_at < now ∧ s.status ∉ FINAL_STATUSES
  · rw [if_pos hb]; rfl
  · rw [if_neg hb]
    cases f with
    | error e => rfl
    | ok p =>
      dsimp only
      have hnf : newStatus s p ≠ "finished" := h p rfl
      by_cases ht : newStatus s p ≠ s.status
      · rw [if_pos ht]
        dsimp only
        by_cases hfin : newStatus s p ∈ FINAL_STATUSES
        · rw [if_pos hfin]
          show (handle_status_change env now _ s (newStatus s p) p).1.subscriptions = _
          rw [handler_store_eq _ _ _ _ _ _ hnf]
          rfl
        · rw [if_neg hfin]
          show (handle_status_change env now _ s (newStatus s p) p).1.subscriptions = _
          rw [handler_store_eq _ _ _ _ _ _ hnf]
          rfl
      · rw [if_neg ht]
        dsimp only
        by_cases hfin : newStatus s p ∈ FINAL_STATUSES
        · rw [if_pos hfin]
          rfl
        · rw [if_neg hfin]
          rfl

/-- Lifting `grant_mem_processSession` through the per-session loop. -/
theorem grant_mem_runSessions (env : Env) (now : Int)
    (fetch : String → Except Unit Payload) (g u rid : Nat) :
    ∀ (l : List SessionRow) (st : Store),
    Effect.grantRole g u rid ∈ (runSessions env now fetch l st).2 →
    ∃ s, s ∈ l ∧ ∃ p, fetch s.status_url = Except.ok p ∧
      newStatus s p = "finished" ∧ g = s.guild_id ∧ u = s.user_id := by
  intro l
  induction l with
  | nil => intro st h; simp [runSessions] at h
  | cons s rest ih =>
    intro st h
    unfold runSessions at h
    dsimp only at h
    rw [List.mem_append] at h
    rcases h with h1 | h2
    · obtain ⟨p, hp, hfin, hg, hu⟩ := grant_mem_processSession _ _ _ _ _ _ _ _ h1
      exact ⟨s, by simp, p, hp, hfin, hg, hu⟩
    · obtain ⟨s', hs', hrest⟩ := ih _ h2
      exact ⟨s', by simp [hs'], hrest⟩

/-- Claim C9: across the whole reconciliation pass, a role-grant attempt
occurs only for a session whose lowered fetched status is `finished`; and
a session whose lowered fetched status is `paid partially` produces no
role grant and leaves the subscription table unchanged. -/
theorem claim9_grant_only_finished (env : Env) (now ttl : Int)
    (fetch : String → Except Unit Payload) (st : Store) :
    (∀ g u rid, Effect.grantRole g u rid ∈ (process_payment_updates env now ttl fetch st).2 →
      ∃ s, s ∈ loadActiveSessions st now ttl ∧ ∃ p, fetch s.status_url = Except.ok p ∧
        newStatus s p = "finished" ∧ g = s.guild_id ∧ u = s.user_id) ∧
    (∀ (s : SessionRow) (p : Payload), newStatus s p = "paid partially" →
      (∀ g u rid, Effect.grantRole g u rid ∉ (processSession env now (Except.ok p) st s).effects) ∧
      (processSession env now (Except.ok p) st s).store.subscriptions = st.subscriptions) := by
  constructor
  · intro g u rid h
    exact grant_mem_runSessions env now fetch g u rid _ st h
  · intro s p hpp
    constructor
    · intro g u rid hmem
      obtain ⟨p', hp', hfin, -, -⟩ := grant_mem_processSession _ _ _ _ _ _ _ _ hmem
      injection hp' with hh
      subst hh
      rw [hpp] at hfin
      exact absurd hfin (by decide)
    · apply processSession_subs_eq
      intro p' hp'
      injection hp' with hh
      subst hh
      rw [hpp]
      decide

/-- Witness for C9: a finished payment in a store with a role-bearing
profile yields a grant, and the theorem locates the finished session. -/
theorem claim9_witness :
    ∃ s, s ∈ loadActiveSessions stC9 100 20 ∧ ∃ p,
      (Except.ok payFinished : Except Unit Payload) = Except.ok p ∧
      newStatus s p = "finished" ∧ 10 = s.guild_id ∧ 2 = s.user_id :=
  (claim9_grant_only_finished envAll 100 20 (fun _ => Except.ok payFinished) stC9).1
    10 2 4 (by decide)

/-! ## Watchdog sweep characterization (for C3 and C10) -/

/-- Concatenation of per-row effect lists, in row order. -/
def concatEffs (f : SubRow → List Effect) : List SubRow → List Effect
  | [] => []
  | x :: rest => f x ++ concatEffs f rest

/-- Mark a row when its id is in the given set. -/
def markIf (now : Int) (ids : List Nat) (r : SubRow) : SubRow :=
  if r.id ∈ ids then markRow now r else r

/-- The ids of the rows of `l` whose notification marker is unset. -/
def unmarkedIds (l : List SubRow) : List Nat :=
  (l.filter (fun x => !x.last_notified_at.isSome)).map SubRow.id

/-- The expiring-soon snapshot queried by the sweep. -/
def expiringList (now : Int) (st : Store) : List SubRow :=
  st.subscriptions.filter (expiringPred now)

def sweepIds (now : Int) (st : Store) : List Nat :=
  unmarkedIds (expiringList now st)

/-- The subscription table after the expiring-soon loop. -/
def markedSubs (now : Int) (st : Store) : List SubRow :=
  st.subscriptions.map (markIf now (sweepIds now st))

/-- The expired snapshot queried by the sweep (from the marked table). -/
def expiredList (now : Int) (st : Store) : List SubRow :=
  (markedSubs now st).filter (fun r => decide (r.expires_at ≤ now))

def expiredIds (now : Int) (st : Store) : List Nat :=
  (expiredList now st).map SubRow.id

theorem markIf_id (now : Int) (ids : List Nat) (r : SubRow) :
    (markIf now ids r).id = r.id := by
  unfold markIf; split <;> rfl

theorem markIf_guild (now : Int) (ids : List Nat) (r : SubRow) :
    (markIf now ids r).guild_id = r.guild_id := by
  unfold markIf; split <;> rfl

theorem markIf_expires (now : Int) (ids : List Nat) (r : SubRow) :
    (markIf now ids r).expires_at = r.expires_at := by
  unfold markIf; split <;> rfl

theorem mem_concatEffs {f : SubRow → List Effect} {e : Effect} :
    ∀ {l : List SubRow}, e ∈ concatEffs f l ↔ ∃ x ∈ l, e ∈ f x := by
  intro l
  induction l with
  | nil => simp [concatEffs]
  | cons x rest ih => simp [concatEffs, ih]

/-- Store shape of the expiring-soon loop: exactly the unmarked rows of
the snapshot get their marker set to `now`. -/
theorem sweepExpiringLoop_fst (env : Env) (now : Int) :
    ∀ (l : List SubRow) (st : Store),
    (sweepExpiringLoop env now l st).1
      = { st with subscriptions := st.subscriptions.map (markIf now (unmarkedIds l)) } := by
  intro l
  induction l with
  | nil =>
    intro st
    show st = _
    rw [show st.subscriptions.map (markIf now (unmarkedIds ([] : List SubRow)))
          = st.subscriptions.map id from
        List.map_congr_left (fun r _ => by simp [markIf, unmarkedIds]), List.map_id]
  | cons x rest ih =>
    intro st
    cases hx : x.last_notified_at with
    | some t =>
      unfold sweepExpiringLoop
      rw [if_pos (by rw [hx]; rfl)]
      rw [ih]
      have hids : unmarkedIds (x :: rest) = unmarkedIds rest := by
        simp [unmarkedIds, hx]
      rw [hids]
    | none =>
      unfold sweepExpiringLoop
      rw [if_neg (by rw [hx]; simp)]
      dsimp only
      rw [ih]
      have hids : unmarkedIds (x :: rest) = x.id :: unmarkedIds rest := by
        simp [unmarkedIds, hx]
      rw [hids]
      unfold mark_subscription_notified
      dsimp only
      rw [List.map_map]
      congr 1
      apply List.map_congr_left
      intro r _
      by_cases hid : r.id = x.id
      · by_cases hrest : r.id ∈ unmarkedIds rest <;>
          simp [Function.comp, markIf, markRow, hid, hrest, List.mem_cons]
      · by_cases hrest : r.id ∈ unmarkedIds rest <;>
          simp [Function.comp, markIf, markRow, hid, hrest, List.mem_cons]

/-- Effect shape of the expiring-soon loop. -/
theorem sweepExpiringLoop_snd (env : Env) (now : Int) :
    ∀ (l : List SubRow) (st : Store),
    (sweepExpiringLoop env now l st).2
      = concatEffs (notify_subscription_expiring env)
          (l.filter (fun x => !x.last_notified_at.isSome)) := by
  intro l
  induction l with
  | nil => intro st; rfl
  | cons x rest ih =>
    intro st
    cases hx : x.last_notified_at with
    | some t =>
      unfold sweepExpiringLoop
      rw [if_pos (by rw [hx]; rfl)]
      rw [ih]
      have hf : (x :: rest).filter (fun x => !x.last_notified_at.isSome)
          = rest.filter (fun x => !x.last_notified_at.isSome) := by
        simp [hx]
      rw [hf]
    | none =>
      unfold sweepExpiringLoop
      rw [if_neg (by rw [hx]; simp)]
      dsimp only
      rw [ih]
      have hf : (x :: rest).filter (fun x => !x.last_notified_at.isSome)
          = x :: rest.filter (fun x => !x.last_notified_at.isSome) := by
        simp [hx]
      rw [hf]
      rfl

/-- Store shape of the expired loop: exactly the snapshot's ids are
removed from the table. -/
theorem sweepExpiredLoop_fst (env : Env) :
    ∀ (l : List SubRow) (st : Store),
    (sweepExpiredLoop env l st).1
      = { st with
          subscriptions := st.subscriptions.filter (fun r => decide (r.id ∉ l.map SubRow.id)) } := by
  intro l
  induction l with
  | nil =>
    intro st
    show st = _
    rw [show st.subscriptions.filter (fun r => decide (r.id ∉ ([] : List SubRow).map SubRow.id))
          = st.subscriptions.filter (fun _ => true) from
        List.filter_congr (fun r _ => by simp), List.filter_true]
  | cons x rest ih =>
    intro st
    unfold sweepExpiredLoop
    dsimp only
    rw [ih]
    unfold delete_subscription
    dsimp only
    rw [List.filter_filter]
    congr 1
    apply List.filter_congr
    intro r _
    by_cases h1 : r.id = x.id <;> by_cases h2 : r.id ∈ rest.map SubRow.id <;>
      simp [h1, h2, List.mem_cons]

/-- Effect shape of the expired loop. -/
theorem sweepExpiredLoop_snd (env : Env) :
    ∀ (l : List SubRow) (st : Store),
    (sweepExpiredLoop env l st).2 = concatEffs (expire_subscription env) l := by
  intro l
  induction l with
  | nil => intro st; rfl
  | cons x rest ih =>
    intro st
    unfold sweepExpiredLoop
    dsimp only
    rw [ih]
    rfl

/-- The subscription table after one full sweep. -/
theorem process_subs_store (env : Env) (now : Int) (st : Store) :
    (process_subscriptions env now st).1.subscriptions
      = (markedSubs now st).filter (fun r => decide (r.id ∉ expiredIds now st)) := by
  unfold process_subscriptions
  dsimp only
  rw [sweepExpiringLoop_fst, sweepExpiredLoop_fst]
  rfl

/-- The effects of one full sweep. -/
theorem process_subs_effects (env : Env) (now : Int) (st : Store) :
    (process_subscriptions env now st).2
      = concatEffs (notify_subscription_expiring env)
          ((expiringList now st).filter (fun x => !x.last_notified_at.isSome))
        ++ concatEffs (expire_subscription env) (expiredList now st) := by
  unfold process_subscriptions
  dsimp only
  rw [sweepExpiringLoop_fst, sweepExpiringLoop_snd, sweepExpiredLoop_snd]
  rfl

/-- Every effect of the expiring notification is an expiring webhook
tagged with the row's id and gated on the row's guild and webhook. -/
theorem mem_notify_expiring {e : Effect} {env : Env} {sub : SubRow}
    (h : e ∈ notify_subscription_expiring env sub) :
    ∃ uu, e = Effect.expiringWebhook uu sub.id ∧
      env.hasGuild sub.guild_id = true ∧ sub.webhook_url = some uu ∧ uu ≠ "" := by
  unfold notify_subscription_expiring at h
  by_cases hg : env.hasGuild sub.guild_id
  · rw [if_pos hg] at h
    cases hw : sub.webhook_url with
    | none => rw [hw] at h; cases h
    | some uu =>
      rw [hw] at h
      dsimp only at h
      by_cases hne : uu ≠ ""
      · rw [if_pos hne] at h
        simp at h
        exact ⟨uu, h, hg, rfl, hne⟩
      · rw [if_neg hne] at h; cases h
  · rw [if_neg hg] at h; cases h

theorem notify_expiring_mem {env : Env} {sub : SubRow} {uu : String}
    (hg : env.hasGuild sub.guild_id = true) (hw : sub.webhook_url = some uu)
    (hne : uu ≠ "") :
    Effect.expiringWebhook uu sub.id ∈ notify_subscription_expiring env sub := by
  unfold notify_subscription_expiring
  rw [if_pos hg, hw]
  dsimp only
  rw [if_pos hne]
  exact List.mem_singleton.mpr rfl

/-- Every effect of the expiry handler is a revoke or an expired webhook
tagged with the row's id, and requires the guild to resolve. -/
theorem mem_expire_sub {e : Effect} {env : Env} {sub : SubRow}
    (h : e ∈ expire_subscription env sub) :
    env.hasGuild sub.guild_id = true ∧
      ((∃ rid, e = Effect.revokeRole sub.id sub.guild_id sub.user_id rid) ∨
       (∃ uu, e = Effect.expiredWebhook uu sub.id)) := by
  unfold expire_subscription at h
  by_cases hg : env.hasGuild sub.guild_id
  · rw [if_pos hg] at h
    dsimp only at h
    rw [List.mem_append] at h
    refine ⟨hg, ?_⟩
    rcases h with h1 | h1
    · left
      split at h1
      · split at h1
        · simp at h1
          exact ⟨_, h1⟩
        · cases h1
      · cases h1
    · right
      split at h1
      · split at h1
        · simp at h1
          exact ⟨_, h1⟩
        · cases h1
      · cases h1
  · rw [if_neg hg] at h; cases h

/-- Rows of the table with equal ids are equal when the id column has no
duplicates. -/
theorem subRow_eq_of_id {st : Store} (hnd : (st.subscriptions.map SubRow.id).Nodup)
    {a b : SubRow} (ha : a ∈ st.subscriptions) (hb : b ∈ st.subscriptions)
    (h : a.id = b.id) : a = b :=
  List.inj_on_of_nodup_map hnd ha hb h

/-- A live row's id is never in the expired snapshot. -/
theorem id_not_in_expiredIds {now : Int} {st : Store} {sub : SubRow}
    (hnd : (st.subscriptions.map SubRow.id).Nodup)
    (hmem : sub ∈ st.subscriptions) (hlive : now < sub.expires_at) :
    sub.id ∉ expiredIds now st := by
  intro h
  obtain ⟨x, hx, hxid⟩ := List.mem_map.mp h
  obtain ⟨hxm, hxe⟩ := List.mem_filter.mp hx
  obtain ⟨y, hy, hyx⟩ := List.mem_map.mp hxm
  have hyid : y.id = sub.id := by rw [← hxid, ← hyx, markIf_id]
  have hysub : y = sub := subRow_eq_of_id hnd hy hmem hyid
  subst hysub
  rw [← hyx, markIf_expires] at hxe
  exact absurd (of_decide_eq_true hxe) (not_le.mpr hlive)

/-- The expired snapshot's rows come from marking rows of the table. -/
theorem mem_expiredList {now : Int} {st : Store} {x : SubRow}
    (hx : x ∈ expiredList now st) :
    ∃ y ∈ st.subscriptions, x = markIf now (sweepIds now st) y := by
  obtain ⟨hxm, -⟩ := List.mem_filter.mp hx
  obtain ⟨y, hy, hyx⟩ := List.mem_map.mp hxm
  exact ⟨y, hy, hyx.symm⟩

/-! ## C10 — unresolvable guild: row still deleted, no effects -/

/-- Claim C10: when the watchdog processes an expired subscription whose
guild cannot be resolved, the row is still deleted by the sweep, and
neither a role revocation nor an "expired" webhook is attempted for it. -/
theorem claim10_unresolved_guild_still_deleted (env : Env) (now : Int) (st : Store)
    (sub : SubRow)
    (hnd : (st.subscriptions.map SubRow.id).Nodup)
    (hmem : sub ∈ st.subscriptions)
    (hexp : sub.expires_at ≤ now)
    (hg : env.hasGuild sub.guild_id = false) :
    (∀ r ∈ (process_subscriptions env now st).1.subscriptions, r.id ≠ sub.id) ∧
    (∀ uu, Effect.expiredWebhook uu sub.id ∉ (process_subscriptions env now st).2) ∧
    (∀ g2 u2 rid, Effect.revokeRole sub.id g2 u2 rid ∉ (process_subscriptions env now st).2) := by
  have hsubIn : sub.id ∈ expiredIds now st := by
    apply List.mem_map.mpr
    refine ⟨markIf now (sweepIds now st) sub, ?_, markIf_id _ _ _⟩
    apply List.mem_filter.mpr
    refine ⟨List.mem_map_of_mem _ hmem, ?_⟩
    rw [markIf_expires]
    exact decide_eq_true hexp
  have hguild : ∀ x ∈ expiredList now st, x.id = sub.id → env.hasGuild x.guild_id = false := by
    intro x hx hxid
    obtain ⟨y, hy, hyx⟩ := mem_expiredList hx
    have hyid : y.id = sub.id := by rw [← hxid, hyx, markIf_id]
    have hysub : y = sub := subRow_eq_of_id hnd hy hmem hyid
    subst hysub
    rw [hyx, markIf_guild, hg]
  refine ⟨?_, ?_, ?_⟩
  · intro r hr heq
    rw [process_subs_store] at hr
    obtain ⟨-, hrid⟩ := List.mem_filter.mp hr
    exact absurd hsubIn (by rw [← heq]; exact of_decide_eq_true hrid)
  · intro uu hmem2
    rw [process_subs_effects, List.mem_append] at hmem2
    rcases hmem2 with h1 | h1
    · obtain ⟨x, -, hex⟩ := mem_concatEffs.mp h1
      obtain ⟨uu2, heq, -, -, -⟩ := mem_notify_expiring hex
      exact Effect.noConfusion heq
    · obtain ⟨x, hx, hex⟩ := mem_concatEffs.mp h1
      obtain ⟨hgx, hshape⟩ := mem_expire_sub hex
      rcases hshape with ⟨rid, heq⟩ | ⟨uu2, heq⟩
      · exact Effect.noConfusion heq
      · injection heq with e1 e2
        rw [hguild x hx e2.symm] at hgx
        cases hgx
  · intro g2 u2 rid hmem2
    rw [process_subs_effects, List.mem_append] at hmem2
    rcases hmem2 with h1 | h1
    · obtain ⟨x, -, hex⟩ := mem_concatEffs.mp h1
      obtain ⟨uu2, heq, -, -, -⟩ := mem_notify_expiring hex
      exact Effect.noConfusion heq
    · obtain ⟨x, hx, hex⟩ := mem_concatEffs.mp h1
      obtain ⟨hgx, hshape⟩ := mem_expire_sub hex
      rcases hshape with ⟨rid2, heq⟩ | ⟨uu2, heq⟩
      · injection heq with e1 e2 e3 e4
        rw [hguild x hx e1.symm] at hgx
        cases hgx
      · exact Effect.noConfusion heq

/-- Witness for C10 at an expired subscription whose guild is unknown. -/
theorem claim10_witness :
    (∀ r ∈ (process_subscriptions envNoGuild 500 stC10).1.subscriptions, r.id ≠ subC10.id) ∧
    (∀ uu, Effect.expiredWebhook uu subC10.id ∉ (process_subscriptions envNoGuild 500 stC10).2) ∧
    (∀ g2 u2 rid,
      Effect.revokeRole subC10.id g2 u2 rid ∉ (process_subscriptions envNoGuild 500 stC10).2) :=
  claim10_unresolved_guild_still_deleted envNoGuild 500 stC10 subC10
    (by decide) (by decide) (by decide) (by decide)

/-! ## C3 — expiring-soon notification and the debounce -/

/-- Claim C3 as stated is false: a subscription inside the warning window
whose last-notified timestamp is set and more than one minute old is
returned by the store query but skipped by the sweep
(`if subscription.get("last_notified_at"): continue`), so it is neither
re-notified nor re-marked: the sweep leaves the store and effect list
completely unchanged. -/
theorem claim3_counterexample :
    expiringPred 500 subC3 = true ∧
    subC3.last_notified_at = some 100 ∧ (100 : Int) < 500 - 60 ∧
    process_subscriptions envAll 500 stC3 = (stC3, []) := by
  decide

/-- Claim C3, amended: the sweep dispatches the "expiring soon" event and
marks notified-now exactly for the window's subscriptions whose
last-notified timestamp is unset; a subscription whose marker is set is
never re-notified by the sweep, no matter how old the marker is (the
store-level one-minute debounce is made unreachable by the bot-side
skip), and its row is left unchanged while it is still unexpired. -/
theorem claim3_amended (env : Env) (now : Int) (st : Store) (sub : SubRow)
    (hnd : (st.subscriptions.map SubRow.id).Nodup)
    (hmem : sub ∈ st.subscriptions)
    (hwin : expiringPred now sub = true)
    (hlive : now < sub.expires_at) :
    (sub.last_notified_at = none →
      markRow now sub ∈ (process_subscriptions env now st).1.subscriptions ∧
      ∀ uu, (Effect.expiringWebhook uu sub.id ∈ (process_subscriptions env now st).2 ↔
        env.hasGuild sub.guild_id = true ∧ sub.webhook_url = some uu ∧ uu ≠ "")) ∧
    (∀ t, sub.last_notified_at = some t →
      sub ∈ (process_subscriptions env now st).1.subscriptions ∧
      ∀ uu, Effect.expiringWebhook uu sub.id ∉ (process_subscriptions env now st).2) := by
  have hfe : markIf now (sweepIds now st) sub ∈ markedSubs now st :=
    List.mem_map_of_mem _ hmem
  have hnotexp : sub.id ∉ expiredIds now st := id_not_in_expiredIds hnd hmem hlive
  constructor
  · intro hnone
    have hsubUn : sub ∈ (expiringList now st).filter (fun x => !x.last_notified_at.isSome) := by
      apply List.mem_filter.mpr
      exact ⟨List.mem_filter.mpr ⟨hmem, hwin⟩, by rw [hnone]; rfl⟩
    have hidIn : sub.id ∈ sweepIds now st := by
      unfold sweepIds unmarkedIds
      exact List.mem_map_of_mem _ hsubUn
    have hfsub : markIf now (sweepIds now st) sub = markRow now sub := by
      unfold markIf
      rw [if_pos hidIn]
    constructor
    · rw [process_subs_store]
      apply List.mem_filter.mpr
      refine ⟨by rw [← hfsub]; exact hfe, ?_⟩
      exact decide_eq_true hnotexp
    · intro uu
      constructor
      · intro hmem2
        rw [process_subs_effects, List.mem_append] at hmem2
        rcases hmem2 with h1 | h1
        · obtain ⟨x, hx, hex⟩ := mem_concatEffs.mp h1
          obtain ⟨uu2, heq, hgx, hwx, hnex⟩ := mem_notify_expiring hex
          injection heq with e1 e2
          have hxmem : x ∈ st.subscriptions :=
            (List.mem_filter.mp (List.mem_filter.mp hx).1).1
          have hxsub : x = sub := subRow_eq_of_id hnd hxmem hmem e2.symm
          subst hxsub
          subst e1
          exact ⟨hgx, hwx, hnex⟩
        · obtain ⟨x, hx, hex⟩ := mem_concatEffs.mp h1
          obtain ⟨-, hshape⟩ := mem_expire_sub hex
          rcases hshape with ⟨rid, heq⟩ | ⟨uu2, heq⟩ <;> exact Effect.noConfusion heq
      · rintro ⟨hg2, hw2, hne2⟩
        rw [process_subs_effects, List.mem_append]
        left
        exact mem_concatEffs.mpr ⟨sub, hsubUn, notify_expiring_mem hg2 hw2 hne2⟩
  · intro t hsome
    have hidNotIn : sub.id ∉ sweepIds now st := by
      intro hin
      unfold sweepIds unmarkedIds at hin
      obtain ⟨x, hx, hxid⟩ := List.mem_map.mp hin
      obtain ⟨hx1, hx2⟩ := List.mem_filter.mp hx
      have hxmem : x ∈ st.subscriptions := (List.mem_filter.mp hx1).1
      have hxsub : x = sub := subRow_eq_of_id hnd hxmem hmem hxid
      subst hxsub
      rw [hsome] at hx2
      simp at hx2
    have hfsub : markIf now (sweepIds now st) sub = sub := by
      unfold markIf
      rw [if_neg hidNotIn]
    constructor
    · rw [process_subs_store]
      apply List.mem_filter.mpr
      exact ⟨by rw [← hfsub]; exact hfe, decide_eq_true hnotexp⟩
    · intro uu hmem2
      rw [process_subs_effects, List.mem_append] at hmem2
      rcases hmem2 with h1 | h1
      · obtain ⟨x, hx, hex⟩ := mem_concatEffs.mp h1
        obtain ⟨uu2, heq, -, -, -⟩ := mem_notify_expiring hex
        injection heq with e1 e2
        obtain ⟨hx1, hx2⟩ := List.mem_filter.mp hx
        have hxmem : x ∈ st.subscriptions := (List.mem_filter.mp hx1).1
        have hxsub : x = sub := subRow_eq_of_id hnd hxmem hmem e2.symm
        subst hxsub
        rw [hsome] at hx2
        simp at hx2
      · obtain ⟨x, hx, hex⟩ := mem_concatEffs.mp h1
        obtain ⟨-, hshape⟩ := mem_expire_sub hex
        rcases hshape with ⟨rid, heq⟩ | ⟨uu2, heq⟩ <;> exact Effect.noConfusion heq

/-- Witness for the amended C3 at a never-notified subscription. -/
theorem claim3_witness :
    markRow 500 subW3 ∈ (process_subscriptions envAll 500 stW3).1.subscriptions ∧
    ∀ uu, (Effect.expiringWebhook uu subW3.id ∈ (process_subscriptions envAll 500 stW3).2 ↔
      envAll.hasGuild subW3.guild_id = true ∧ subW3.webhook_url = some uu ∧ uu ≠ "") :=
  (claim3_amended envAll 500 stW3 subW3 (by decide) (by decide) (by decide) (by decide)).1 rfl

end CatPaymentBot
